import Mathlib

set_option linter.unusedVariables false

/-!
Verification of the Food Donation backend (src/app.py).

The program is a single-module Flask service over one SQLite table of
donations, with three operations: list (GET), create (POST), claim (PATCH).
We embed it shallowly:

* Python/JSON scalar values become `PyVal` (None, bool, int, str); request
  bodies become `Option (List (String × PyVal))` (an absent body is
  `Option.none`, a JSON object is an association list).
* The database becomes `Store`: the list of rows plus the next
  auto-increment primary key.
* Each handler becomes a function from the store (and the request data) to
  an `ApiResult`: HTTP status code, the principal message string of the
  JSON body, and the store after the request.  The transactional commit,
  which can fail, is modelled by an explicit `commitOk : Bool` argument:
  `true` means `db.session.commit()` succeeds, `false` means it raises and
  the handler runs `db.session.rollback()`.
* `random.uniform(0.5, 10.0)` is modelled by an explicit rational sample
  `u`, and the f-string format `:.1f` by round-half-even to one fractional
  digit (`roundHalfEven`, `format1f`), exact over the rationals.
-/

/-- Python/JSON scalar values as they appear in a Flask `request.json`
dict: `None`, booleans, integers and strings.  (JSON floats do not occur in
any claim and are not modelled.) -/
inductive PyVal where
  | none : PyVal
  | bool (b : Bool) : PyVal
  | int (n : Int) : PyVal
  | str (s : String) : PyVal
deriving DecidableEq, Repr

/-- Python `str()` of a scalar, as used by f-string interpolation:
`f"{None}" = "None"`, `f"{True}" = "True"`, etc. -/
def pyStr : PyVal → String
  | PyVal.none => "None"
  | PyVal.bool b => if b then "True" else "False"
  | PyVal.int n => toString n
  | PyVal.str s => s

/-- Lookup in a JSON-object association list, mirroring `k in d` /
`d[k]`. -/
def dictLookup (p : List (String × PyVal)) (k : String) : Option PyVal :=
  (p.find? (fun kv => kv.fst == k)).map (fun kv => kv.snd)

/-- Python `d.get(k, dflt)`: the stored value when the key is present
(even when that value is `None`), the default otherwise. -/
def dictGet (p : List (String × PyVal)) (k : String) (dflt : PyVal) : PyVal :=
  (dictLookup p k).getD dflt

/-- Python `k in d`. -/
def hasKey (p : List (String × PyVal)) (k : String) : Bool :=
  (dictLookup p k).isSome

/-- One row of the `donations` table (class `Donation` in src/app.py).
Fields that the handlers copy straight from the loosely-typed payload keep
type `PyVal` (they may be `None` or any scalar); fields the code always
assigns a string (`servings`, `distance`, `status`, `icon`) are `String`. -/
structure Donation where
  id : Nat
  name : PyVal
  servings : String
  readyTime : PyVal
  foodType : PyVal
  status : String
  icon : String
  donor : PyVal
  donorAddress : PyVal
  donor_phone : PyVal
  receiverAddress : PyVal
  receiverPhone : PyVal
  distance : String
deriving DecidableEq, Repr

/-- `Donation.to_dict` from src/app.py: the JSON object serialized for
responses, with the exact field names of the source. -/
def Donation.to_dict (d : Donation) : List (String × PyVal) :=
  [ ("id", PyVal.int d.id),
    ("name", d.name),
    ("donor", d.donor),
    ("donor_phone", d.donor_phone),
    ("donorAddress", d.donorAddress),
    ("receiverAddress", d.receiverAddress),
    ("receiverPhone", d.receiverPhone),
    ("servings", PyVal.str d.servings),
    ("distance", PyVal.str d.distance),
    ("readyTime", d.readyTime),
    ("status", PyVal.str d.status),
    ("icon", PyVal.str d.icon),
    ("foodType", d.foodType) ]

/-- The persistent state: the rows of the `donations` table and the next
auto-assigned primary key (SQLite assigns 1, 2, ...). -/
structure Store where
  rows : List Donation
  nextId : Nat
deriving DecidableEq, Repr

/-- The database as ensured at startup by `db.create_all()`: empty table,
first primary key 1. -/
def initialStore : Store := ⟨[], 1⟩

/-- The outcome of one request: HTTP status code, the principal message
string of the JSON body (`message` or `error`), and the store after the
request. -/
structure ApiResult where
  code : Nat
  msg : String
  store : Store
deriving DecidableEq, Repr

/-- Round-half-even of a rational to an integer: the rounding Python's
float formatting applies to the value (ties go to the even integer). -/
def roundHalfEven (q : ℚ) : ℤ :=
  if q - Int.floor q < 1/2 then Int.floor q
  else if 1/2 < q - Int.floor q then Int.floor q + 1
  else if Int.floor q % 2 = 0 then Int.floor q else Int.floor q + 1

/-- Python `f"{u:.1f}"` for a nonnegative value: round `u` to one
fractional digit (half-even) and print `intpart.digit`. -/
def format1f (u : ℚ) : String :=
  let n : Nat := (roundHalfEven (10 * u)).toNat
  toString (n / 10) ++ "." ++ toString (n % 10)

/-- `calculate_distance_to_receiver` from src/app.py: ignores
`donor_address` and returns `f"{random.uniform(0.5, 10.0):.1f} mi"`, the
random sample being the explicit argument `u`. -/
def calculate_distance_to_receiver (donor_address : PyVal) (u : ℚ) : String :=
  format1f u ++ " mi"

/-- GET /api/donations (`get_donations` in src/app.py): serialize every
row; the store is not changed (the handler only reads). -/
def get_donations (s : Store) : List (List (String × PyVal)) :=
  s.rows.map Donation.to_dict

/-- The `Donation(...)` constructor call inside `add_donation`
(src/app.py lines 94-107): payload fields mapped to entity fields with the
source's defaults, the schema defaults status='pending' and the gift-glyph
icon, and the distance computed by `calculate_distance_to_receiver` on the
payload's donorAddress (default "") with random sample `u`.  The primary
key is the one SQLite auto-assigns at commit. -/
def newDonationOf (s : Store) (p : List (String × PyVal)) (u : ℚ) : Donation :=
  { id := s.nextId,
    donor := dictGet p "donorname" (PyVal.str "Web Form User"),
    name := dictGet p "itemname" (PyVal.str "New Food Donation"),
    donor_phone := dictGet p "donorPhone" PyVal.none,
    donorAddress := dictGet p "donorAddress" PyVal.none,
    receiverAddress := dictGet p "receiverAddress" PyVal.none,
    receiverPhone := dictGet p "receiverPhone" PyVal.none,
    foodType := dictGet p "foodType" PyVal.none,
    servings := pyStr (dictGet p "quantity" (PyVal.int 0)) ++ " Servings",
    distance := calculate_distance_to_receiver (dictGet p "donorAddress" (PyVal.str "")) u,
    readyTime := dictGet p "pickupTime" (PyVal.str "ASAP"),
    status := "pending",
    icon := "🎁" }

/-- POST /api/donations (`add_donation` in src/app.py).
`new_donation_data` is `request.json` (`Option.none` for an absent body);
`u` is the random sample used for the distance; `commitOk` tells whether
`db.session.commit()` succeeds (on failure the session is rolled back, so
the store is unchanged). -/
def add_donation (s : Store) (new_donation_data : Option (List (String × PyVal)))
    (u : ℚ) (commitOk : Bool) : ApiResult :=
  match new_donation_data with
  | Option.none => ⟨400, "Missing required data", s⟩
  | Option.some p =>
    if p.isEmpty || !(hasKey p "quantity") then
      ⟨400, "Missing required data", s⟩
    else if commitOk then
      ⟨201, "Donation successfully recorded",
        { rows := s.rows ++ [newDonationOf s p u], nextId := s.nextId + 1 }⟩
    else
      ⟨500, "Failed to save donation to database", s⟩

/-- `Donation.query.get(donation_id)`: the row with that primary key. -/
def getById (s : Store) (donation_id : Nat) : Option Donation :=
  s.rows.find? (fun d => d.id == donation_id)

/-- The in-place mutation `donation.status = 'claimed'` as it lands in the
table: the row with the claimed primary key gets status "claimed", every
other row is untouched. -/
def claimUpd (donation_id : Nat) (d : Donation) : Donation :=
  if d.id == donation_id then { d with status := "claimed" } else d

/-- PATCH /api/donations/{id}/claim (`claim_donation` in src/app.py).
`commitOk` tells whether `db.session.commit()` succeeds; on failure the
session is rolled back, so the store is unchanged. -/
def claim_donation (s : Store) (donation_id : Nat) (commitOk : Bool) : ApiResult :=
  match getById s donation_id with
  | Option.none => ⟨404, "Donation not found", s⟩
  | Option.some donation =>
    if donation.status = "pending" then
      if commitOk then
        ⟨200, "Donation " ++ toString donation_id ++ " claimed successfully",
          { s with rows := s.rows.map (claimUpd donation_id) }⟩
      else
        ⟨500, "Failed to update donation status", s⟩
    else
      ⟨400, "Donation " ++ toString donation_id ++ " is already " ++ donation.status, s⟩

/-- States reachable from the freshly created database through the exposed
operations.  GET (`get_donations`) never changes the store, so only the
two mutating handlers appear as steps. -/
inductive Reachable : Store → Prop where
  | init : Reachable initialStore
  | create (s : Store) (body : Option (List (String × PyVal))) (u : ℚ) (ok : Bool) :
      Reachable s → Reachable (add_donation s body u ok).store
  | claim (s : Store) (i : Nat) (ok : Bool) :
      Reachable s → Reachable (claim_donation s i ok).store

/-- An ASCII decimal digit, as matched by the regex class [0-9]. -/
def isAsciiDigit (c : Char) : Bool := decide ('0' ≤ c) && decide (c ≤ '9')

/-- After at least one leading digit: the remainder of the regex
[0-9]*\.[0-9] mi$ — more digits, then a dot, one digit and " mi". -/
def patTail : List Char → Bool
  | ['.', d, ' ', 'm', 'i'] => isAsciiDigit d
  | c :: rest => isAsciiDigit c && patTail rest
  | [] => false

/-- Decides the regular expression of the spec's distance-format property,
anchored at both ends: [0-9]+\.[0-9] mi. -/
def matchesPat (s : String) : Bool :=
  match s.data with
  | c :: rest => isAsciiDigit c && patTail rest
  | [] => false

/-- The numeric value of the one-fractional-digit decimal that
`format1f u` prints. -/
def distanceValue (u : ℚ) : ℚ :=
  ((roundHalfEven (10 * u) : ℤ) : ℚ) / 10

lemma roundHalfEven_le (q : ℚ) : (roundHalfEven q : ℚ) ≤ q + 1/2 := by
  have h1 := Int.floor_le q
  have h2 := Int.lt_floor_add_one q
  unfold roundHalfEven
  split_ifs <;> push_cast <;> linarith

lemma le_roundHalfEven (q : ℚ) : q - 1/2 ≤ (roundHalfEven q : ℚ) := by
  have h1 := Int.floor_le q
  have h2 := Int.lt_floor_add_one q
  unfold roundHalfEven
  split_ifs <;> push_cast <;> linarith

lemma matchesPat_digits : ∀ n : Nat, n < 101 →
    matchesPat (toString (n / 10) ++ "." ++ toString (n % 10) ++ " mi") = true := by
  decide

/-- Bounds on the rounded sample: a sample in [0.5, 10.0) rounds to an
integer number of tenths between 5 and 100. -/
lemma roundHalfEven_sample_bounds (u : ℚ) (h1 : 1/2 ≤ u) (h2 : u < 10) :
    5 ≤ roundHalfEven (10 * u) ∧ roundHalfEven (10 * u) ≤ 100 := by
  have hlo := le_roundHalfEven (10 * u)
  have hhi := roundHalfEven_le (10 * u)
  constructor
  · have h4 : (4 : ℚ) < (roundHalfEven (10 * u) : ℚ) := by linarith
    have h5 : (4 : ℤ) < roundHalfEven (10 * u) := by exact_mod_cast h4
    omega
  · have h6 : (roundHalfEven (10 * u) : ℚ) < 101 := by linarith
    have h7 : roundHalfEven (10 * u) < 101 := by exact_mod_cast h6
    omega


lemma find?_id_map_claimUpd (l : List Donation) (i : Nat) :
    (l.map (claimUpd i)).find? (fun d => d.id == i)
      = (l.find? (fun d => d.id == i)).map (claimUpd i) := by
  rw [List.find?_map]
  have hfun : ((fun d : Donation => d.id == i) ∘ claimUpd i)
      = (fun d : Donation => d.id == i) := by
    funext d
    simp only [Function.comp_apply, claimUpd]
    split <;> rfl
  rw [hfun]

lemma dictGet_absent (p : List (String × PyVal)) (k : String) (v : PyVal)
    (h : hasKey p k = false) : dictGet p k v = v := by
  unfold hasKey at h
  unfold dictGet
  cases hl : dictLookup p k with
  | none => rfl
  | some w => rw [hl] at h; simp at h

lemma claim_donation_found (s : Store) (i : Nat) (ok : Bool) (d : Donation)
    (hfind : getById s i = Option.some d) :
    claim_donation s i ok =
      if d.status = "pending" then
        if ok then
          ⟨200, "Donation " ++ toString i ++ " claimed successfully",
            { s with rows := s.rows.map (claimUpd i) }⟩
        else ⟨500, "Failed to update donation status", s⟩
      else ⟨400, "Donation " ++ toString i ++ " is already " ++ d.status, s⟩ := by
  unfold claim_donation
  rw [hfind]

lemma add_donation_some (s : Store) (p : List (String × PyVal)) (u : ℚ) (ok : Bool) :
    add_donation s (Option.some p) u ok =
      if p.isEmpty || !(hasKey p "quantity") then ⟨400, "Missing required data", s⟩
      else if ok then
        ⟨201, "Donation successfully recorded",
          { rows := s.rows ++ [newDonationOf s p u], nextId := s.nextId + 1 }⟩
      else ⟨500, "Failed to save donation to database", s⟩ := rfl

lemma hasKey_ne_nil (p : List (String × PyVal)) (k : String)
    (h : hasKey p k = true) : p.isEmpty = false := by
  cases p with
  | nil => simp [hasKey, dictLookup] at h
  | cons kv l => rfl

lemma add_donation_valid (s : Store) (p : List (String × PyVal)) (u : ℚ) (ok : Bool)
    (hq : hasKey p "quantity" = true) :
    add_donation s (Option.some p) u ok =
      if ok then
        ⟨201, "Donation successfully recorded",
          { rows := s.rows ++ [newDonationOf s p u], nextId := s.nextId + 1 }⟩
      else ⟨500, "Failed to save donation to database", s⟩ := by
  rw [add_donation_some, hq, hasKey_ne_nil p "quantity" hq]
  rfl

/-- C1: claiming a pending record returns 200 with a confirmation message
and sets exactly that record's status to "claimed"; claiming a non-pending
record mutates nothing and returns 400 with a message stating the record's
current status; hence a second claim of the same id after a successful one
returns the 400 conflict outcome and leaves the store (so the status)
unchanged. -/
theorem claim_guarded_transition (s : Store) (i : Nat) (d : Donation)
    (hfind : getById s i = Option.some d) :
    (d.status = "pending" →
      claim_donation s i true =
        ⟨200, "Donation " ++ toString i ++ " claimed successfully",
          { s with rows := s.rows.map (claimUpd i) }⟩
      ∧ getById (claim_donation s i true).store i
          = Option.some { d with status := "claimed" }
      ∧ (claim_donation (claim_donation s i true).store i true).code = 400
      ∧ (claim_donation (claim_donation s i true).store i true).msg
          = "Donation " ++ toString i ++ " is already " ++ "claimed"
      ∧ (claim_donation (claim_donation s i true).store i true).store
          = (claim_donation s i true).store)
    ∧ (d.status ≠ "pending" →
      claim_donation s i true =
        ⟨400, "Donation " ++ toString i ++ " is already " ++ d.status, s⟩) := by
  have hfind' : s.rows.find? (fun r => r.id == i) = Option.some d := hfind
  have hid : (d.id == i) = true := by
    have h0 := List.find?_some hfind'
    exact h0
  constructor
  · intro hp
    have h1 : claim_donation s i true =
        ⟨200, "Donation " ++ toString i ++ " claimed successfully",
          { s with rows := s.rows.map (claimUpd i) }⟩ := by
      rw [claim_donation_found s i true d hfind, if_pos hp, if_pos rfl]
    have h2 : getById (claim_donation s i true).store i
        = Option.some { d with status := "claimed" } := by
      rw [h1]
      show (s.rows.map (claimUpd i)).find? (fun r => r.id == i)
          = Option.some { d with status := "claimed" }
      rw [find?_id_map_claimUpd, hfind']
      simp only [Option.map_some']
      unfold claimUpd
      rw [if_pos hid]
    have h3 : claim_donation (claim_donation s i true).store i true =
        ⟨400, "Donation " ++ toString i ++ " is already " ++ "claimed",
          (claim_donation s i true).store⟩ := by
      rw [claim_donation_found (claim_donation s i true).store i true
            { d with status := "claimed" } h2]
      rw [if_neg (by simp)]
    exact ⟨h1, h2, by rw [h3], by rw [h3], by rw [h3]⟩
  · intro hnp
    rw [claim_donation_found s i true d hfind, if_neg hnp]

/-- Witness store for the claim theorems: one pending donation with
primary key 1. -/
def dW : Donation :=
  { id := 1, name := PyVal.str "Chicken Sandwiches", servings := "20 Servings",
    readyTime := PyVal.str "3:00 PM Today", foodType := PyVal.str "prepared",
    status := "pending", icon := "🎁", donor := PyVal.str "Janes Bakery",
    donorAddress := PyVal.none, donor_phone := PyVal.none,
    receiverAddress := PyVal.none, receiverPhone := PyVal.none,
    distance := "5.0 mi" }

def sW : Store := ⟨[dW], 2⟩

theorem claim_guarded_transition_witness :
    claim_donation sW 1 true =
      ⟨200, "Donation " ++ toString 1 ++ " claimed successfully",
        { sW with rows := sW.rows.map (claimUpd 1) }⟩
    ∧ (claim_donation (claim_donation sW 1 true).store 1 true).code = 400 := by
  have h := (claim_guarded_transition sW 1 dW rfl).1 rfl
  exact ⟨h.1, h.2.2.1⟩

/-- C5: a claim against an id that matches no stored record returns 404
with an error body and leaves the store, hence every stored record and its
status, unchanged. -/
theorem claim_not_found (s : Store) (i : Nat) (ok : Bool)
    (h : getById s i = Option.none) :
    claim_donation s i ok = ⟨404, "Donation not found", s⟩ := by
  unfold claim_donation
  rw [h]

theorem claim_not_found_witness :
    claim_donation initialStore 7 true = ⟨404, "Donation not found", initialStore⟩ :=
  claim_not_found initialStore 7 true rfl

/-- C2: a create request with no body, or whose body lacks the key
"quantity", is rejected with 400 and an error body and stores nothing; any
payload that does contain "quantity" never takes this validation branch
(the request proceeds to the insert, answering 201 or 500). -/
theorem add_missing_quantity (s : Store) (u : ℚ) (ok : Bool) :
    add_donation s Option.none u ok = ⟨400, "Missing required data", s⟩
    ∧ (∀ p, hasKey p "quantity" = false →
        add_donation s (Option.some p) u ok = ⟨400, "Missing required data", s⟩)
    ∧ (∀ p, hasKey p "quantity" = true →
        (add_donation s (Option.some p) u ok).code = if ok then 201 else 500) := by
  refine ⟨rfl, ?_, ?_⟩
  · intro p hp
    rw [add_donation_some, hp]
    simp
  · intro p hp
    rw [add_donation_valid s p u ok hp]
    cases ok <;> rfl

theorem add_missing_quantity_witness :
    add_donation initialStore Option.none 5 true
      = ⟨400, "Missing required data", initialStore⟩
    ∧ add_donation initialStore (Option.some []) 5 true
      = ⟨400, "Missing required data", initialStore⟩ :=
  ⟨(add_missing_quantity initialStore 5 true).1,
   (add_missing_quantity initialStore 5 true).2.1 [] rfl⟩

/-- C3: for a valid create payload the stored record carries the source's
defaults when keys are absent (donor "Web Form User", name "New Food
Donation", readyTime "ASAP"), servings is the string interpolation of
whatever value sits under "quantity" (any type) followed by " Servings",
and status is "pending". -/
theorem add_defaults_mapping (s : Store) (p : List (String × PyVal)) (u : ℚ)
    (hq : hasKey p "quantity" = true) :
    ∃ d, (add_donation s (Option.some p) u true).code = 201
      ∧ (add_donation s (Option.some p) u true).store.rows = s.rows ++ [d]
      ∧ (hasKey p "donorname" = false → d.donor = PyVal.str "Web Form User")
      ∧ (hasKey p "itemname" = false → d.name = PyVal.str "New Food Donation")
      ∧ (hasKey p "pickupTime" = false → d.readyTime = PyVal.str "ASAP")
      ∧ (∀ v, dictLookup p "quantity" = Option.some v →
          d.servings = pyStr v ++ " Servings")
      ∧ d.status = "pending" := by
  rw [add_donation_valid s p u true hq]
  refine ⟨newDonationOf s p u, rfl, rfl, ?_, ?_, ?_, ?_, rfl⟩
  · intro h
    show dictGet p "donorname" (PyVal.str "Web Form User") = PyVal.str "Web Form User"
    exact dictGet_absent p "donorname" (PyVal.str "Web Form User") h
  · intro h
    show dictGet p "itemname" (PyVal.str "New Food Donation") = PyVal.str "New Food Donation"
    exact dictGet_absent p "itemname" (PyVal.str "New Food Donation") h
  · intro h
    show dictGet p "pickupTime" (PyVal.str "ASAP") = PyVal.str "ASAP"
    exact dictGet_absent p "pickupTime" (PyVal.str "ASAP") h
  · intro v hv
    show pyStr (dictGet p "quantity" (PyVal.int 0)) ++ " Servings" = pyStr v ++ " Servings"
    unfold dictGet
    rw [hv]
    rfl

/-- Witness payload: only "quantity" is set. -/
def pW : List (String × PyVal) := [("quantity", PyVal.int 20)]

theorem add_defaults_mapping_witness :
    ∃ d, (add_donation initialStore (Option.some pW) 5 true).code = 201
      ∧ (add_donation initialStore (Option.some pW) 5 true).store.rows
          = initialStore.rows ++ [d]
      ∧ d.donor = PyVal.str "Web Form User"
      ∧ d.name = PyVal.str "New Food Donation"
      ∧ d.readyTime = PyVal.str "ASAP"
      ∧ d.servings = "20 Servings"
      ∧ d.status = "pending" := by
  obtain ⟨d, h1, h2, h3, h4, h5, h6, h7⟩ := add_defaults_mapping initialStore pW 5 rfl
  exact ⟨d, h1, h2, h3 rfl, h4 rfl, h5 rfl,
    (h6 (PyVal.int 20) rfl).trans (by decide), h7⟩

/-- C9: create validation checks only the presence of the key "quantity":
a payload binding "quantity" to null passes validation, the create answers
201, and the stored record's servings field is "None Servings" (Python's
rendering of None). -/
theorem add_quantity_null (s : Store) (p : List (String × PyVal)) (u : ℚ)
    (h : dictLookup p "quantity" = Option.some PyVal.none) :
    (add_donation s (Option.some p) u true).code = 201
    ∧ ∃ d, (add_donation s (Option.some p) u true).store.rows = s.rows ++ [d]
        ∧ d.servings = "None Servings" := by
  have hq : hasKey p "quantity" = true := by
    unfold hasKey
    rw [h]
    rfl
  rw [add_donation_valid s p u true hq]
  refine ⟨rfl, newDonationOf s p u, rfl, ?_⟩
  show pyStr (dictGet p "quantity" (PyVal.int 0)) ++ " Servings" = "None Servings"
  unfold dictGet
  rw [h]
  rfl

/-- Witness payload: "quantity" bound to null. -/
def pN : List (String × PyVal) := [("quantity", PyVal.none)]

theorem add_quantity_null_witness :
    (add_donation initialStore (Option.some pN) 5 true).code = 201
    ∧ ∃ d, (add_donation initialStore (Option.some pN) 5 true).store.rows
        = initialStore.rows ++ [d] ∧ d.servings = "None Servings" :=
  add_quantity_null initialStore pN 5 rfl

/-- C6: when the persistence commit fails, both mutations roll back: the
operation answers 500 with the source's error message and the store — so
also what a subsequent list returns — is exactly as before; no partial
write is observable. -/
theorem mutation_rollback (s : Store) :
    (∀ body u, (add_donation s body u false).store = s
      ∧ get_donations (add_donation s body u false).store = get_donations s
      ∧ ∀ p, body = Option.some p → hasKey p "quantity" = true →
          (add_donation s body u false).code = 500
          ∧ (add_donation s body u false).msg = "Failed to save donation to database")
    ∧ (∀ i, (claim_donation s i false).store = s
      ∧ get_donations (claim_donation s i false).store = get_donations s
      ∧ ∀ d, getById s i = Option.some d → d.status = "pending" →
          (claim_donation s i false).code = 500
          ∧ (claim_donation s i false).msg = "Failed to update donation status") := by
  constructor
  · intro body u
    have hst : (add_donation s body u false).store = s := by
      cases body with
      | none => rfl
      | some p =>
        rw [add_donation_some]
        split <;> rfl
    refine ⟨hst, by rw [hst], ?_⟩
    intro p hbody hq
    subst hbody
    rw [add_donation_valid s p u false hq]
    exact ⟨rfl, rfl⟩
  · intro i
    have hst : (claim_donation s i false).store = s := by
      cases hg : getById s i with
      | none => rw [claim_not_found s i false hg]
      | some d =>
        rw [claim_donation_found s i false d hg]
        split <;> rfl
    refine ⟨hst, by rw [hst], ?_⟩
    intro d hg hp
    rw [claim_donation_found s i false d hg, if_pos hp]
    exact ⟨rfl, rfl⟩

theorem mutation_rollback_witness :
    (add_donation sW (Option.some pW) 5 false).store = sW
    ∧ (add_donation sW (Option.some pW) 5 false).code = 500
    ∧ (claim_donation sW 1 false).store = sW
    ∧ (claim_donation sW 1 false).code = 500 := by
  have ha := (mutation_rollback sW).1 (Option.some pW) 5
  have hc := (mutation_rollback sW).2 1
  exact ⟨ha.1, (ha.2.2 pW rfl rfl).1, hc.1, (hc.2.2 dW rfl rfl).1⟩

/-- C10: the synthetic distance is independent of the request payload —
`calculate_distance_to_receiver` ignores its donor_address argument, so
with the same randomness any two addresses (and any two payloads fed
through the create path) yield the same distance string. -/
theorem distance_independent_of_payload (s : Store)
    (p1 p2 : List (String × PyVal)) (a1 a2 : PyVal) (u : ℚ) :
    calculate_distance_to_receiver a1 u = calculate_distance_to_receiver a2 u
    ∧ (newDonationOf s p1 u).distance = (newDonationOf s p2 u).distance :=
  ⟨rfl, rfl⟩

lemma floor_c7 : Int.floor (10 * (999/100 : ℚ)) = 99 := by
  rw [Int.floor_eq_iff]
  norm_num

lemma roundHalfEven_c7 : roundHalfEven (10 * (999/100 : ℚ)) = 100 := by
  unfold roundHalfEven
  rw [floor_c7]
  norm_num

/-- C7 counterexample: 9.99 is a possible output of the sampler (it lies
in [0.5, 10.0)), yet the generated string is "10.0 mi": its numeric value
is 10.0, which does NOT fall within [0.5, 10.0) as the claim requires. -/
theorem distance_format_counterexample :
    ((1:ℚ)/2 ≤ 999/100 ∧ (999/100 : ℚ) < 10)
    ∧ calculate_distance_to_receiver (PyVal.str "123 Main St") (999/100) = "10.0 mi"
    ∧ distanceValue (999/100) = 10
    ∧ ¬ distanceValue (999/100) < 10 := by
  refine ⟨⟨by norm_num, by norm_num⟩, ?_, ?_, ?_⟩
  · show toString ((roundHalfEven (10 * (999/100 : ℚ))).toNat / 10) ++ "." ++
        toString ((roundHalfEven (10 * (999/100 : ℚ))).toNat % 10) ++ " mi" = "10.0 mi"
    rw [roundHalfEven_c7]
    decide
  · unfold distanceValue
    rw [roundHalfEven_c7]
    norm_num
  · unfold distanceValue
    rw [roundHalfEven_c7]
    norm_num

/-- C7 (amended): for every possible sampler output (any value in
[0.5, 10.0)), the generated distance string matches the anchored pattern
[0-9]+\.[0-9] mi, and its numeric value falls within the CLOSED interval
[0.5, 10.0] — the upper endpoint is attainable because rounding to one
fractional digit sends samples in [9.95, 10.0) to "10.0". -/
theorem distance_format (a : PyVal) (u : ℚ) (h1 : 1/2 ≤ u) (h2 : u < 10) :
    matchesPat (calculate_distance_to_receiver a u) = true
    ∧ 1/2 ≤ distanceValue u ∧ distanceValue u ≤ 10 := by
  obtain ⟨hlo, hhi⟩ := roundHalfEven_sample_bounds u h1 h2
  refine ⟨?_, ?_, ?_⟩
  · have hn : (roundHalfEven (10 * u)).toNat < 101 := by omega
    show matchesPat (toString ((roundHalfEven (10 * u)).toNat / 10) ++ "." ++
        toString ((roundHalfEven (10 * u)).toNat % 10) ++ " mi") = true
    exact matchesPat_digits ((roundHalfEven (10 * u)).toNat) hn
  · unfold distanceValue
    have h5 : ((5:ℤ):ℚ) ≤ ((roundHalfEven (10 * u) : ℤ) : ℚ) := by exact_mod_cast hlo
    push_cast at h5 ⊢
    linarith
  · unfold distanceValue
    have h100 : ((roundHalfEven (10 * u) : ℤ) : ℚ) ≤ ((100:ℤ):ℚ) := by exact_mod_cast hhi
    push_cast at h100 ⊢
    linarith

lemma half_le_five : (1:ℚ)/2 ≤ 5 := by norm_num

lemma five_lt_ten : (5:ℚ) < 10 := by norm_num

theorem distance_format_witness :
    matchesPat (calculate_distance_to_receiver (PyVal.str "") 5) = true
    ∧ 1/2 ≤ distanceValue 5 ∧ distanceValue 5 ≤ 10 :=
  distance_format (PyVal.str "") 5 half_le_five five_lt_ten

lemma add_store_rows_cases (s : Store) (body : Option (List (String × PyVal)))
    (u : ℚ) (ok : Bool) :
    (add_donation s body u ok).store.rows = s.rows
    ∨ ∃ p, (add_donation s body u ok).store.rows = s.rows ++ [newDonationOf s p u] := by
  cases body with
  | none => left; rfl
  | some p =>
    rw [add_donation_some]
    split
    · left; rfl
    · split
      · right; exact ⟨p, rfl⟩
      · left; rfl

lemma claim_store_rows_cases (s : Store) (i : Nat) (ok : Bool) :
    (claim_donation s i ok).store.rows = s.rows
    ∨ (claim_donation s i ok).store.rows = s.rows.map (claimUpd i) := by
  cases hg : getById s i with
  | none => left; rw [claim_not_found s i ok hg]
  | some d =>
    rw [claim_donation_found s i ok d hg]
    split
    · split
      · right; rfl
      · left; rfl
    · left; rfl

lemma find?_id_map_claimUpd' (l : List Donation) (i k : Nat) :
    (l.map (claimUpd i)).find? (fun d => d.id == k)
      = (l.find? (fun d => d.id == k)).map (claimUpd i) := by
  rw [List.find?_map]
  have hfun : ((fun d : Donation => d.id == k) ∘ claimUpd i)
      = (fun d : Donation => d.id == k) := by
    funext d
    simp only [Function.comp_apply, claimUpd]
    split <;> rfl
  rw [hfun]

lemma reachable_status (s : Store) (hs : Reachable s) :
    ∀ d ∈ s.rows, d.status = "pending" ∨ d.status = "claimed" := by
  induction hs with
  | init =>
    intro d hd
    simp [initialStore] at hd
  | create s0 body u ok hs0 ih =>
    intro d hd
    rcases add_store_rows_cases s0 body u ok with h | ⟨p, h⟩
    · rw [h] at hd
      exact ih d hd
    · rw [h] at hd
      rcases List.mem_append.mp hd with h1 | h1
      · exact ih d h1
      · left
        rw [List.mem_singleton.mp h1]
        rfl
  | claim s0 i ok hs0 ih =>
    intro d hd
    rcases claim_store_rows_cases s0 i ok with h | h
    · rw [h] at hd
      exact ih d hd
    · rw [h] at hd
      rcases List.mem_map.mp hd with ⟨d0, hd0, hmap⟩
      rw [← hmap]
      unfold claimUpd
      split
      · right; rfl
      · exact ih d0 hd0

/-- C4: in every state reachable through the exposed operations the status
of every record is "pending" or "claimed" (so "delivered" is never
reached); the claim operation never adds or removes rows and the only
status change it ever performs on the record with a given id is
pending → claimed; the create operation leaves every existing row exactly
in place and only ever appends a record whose status is "pending". -/
theorem donation_status_machine :
    (∀ s, Reachable s → ∀ d ∈ s.rows, d.status = "pending" ∨ d.status = "claimed")
    ∧ (∀ s i ok, (claim_donation s i ok).store.rows.length = s.rows.length)
    ∧ (∀ s, Reachable s → ∀ i ok k d d',
        getById s k = Option.some d →
        getById (claim_donation s i ok).store k = Option.some d' →
        d'.status = d.status ∨ (d.status = "pending" ∧ d'.status = "claimed"))
    ∧ (∀ s body u ok,
        (add_donation s body u ok).store.rows.take s.rows.length = s.rows
        ∧ ∀ d ∈ (add_donation s body u ok).store.rows,
            d ∈ s.rows ∨ d.status = "pending") := by
  refine ⟨reachable_status, ?_, ?_, ?_⟩
  · intro s i ok
    rcases claim_store_rows_cases s i ok with h | h
    · rw [h]
    · rw [h, List.length_map]
  · intro s hs i ok k d d' hd hd'
    unfold getById at hd hd'
    rcases claim_store_rows_cases s i ok with h | h
    · rw [h, hd] at hd'
      cases hd'
      left
      rfl
    · rw [h, find?_id_map_claimUpd', hd] at hd'
      simp only [Option.map_some'] at hd'
      cases hd'
      have hmem : d ∈ s.rows := List.mem_of_find?_eq_some hd
      rcases reachable_status s hs d hmem with hp | hc
      · unfold claimUpd
        split
        · right
          exact ⟨hp, rfl⟩
        · left
          rfl
      · unfold claimUpd
        split
        · left
          rw [hc]
        · left
          rfl
  · intro s body u ok
    rcases add_store_rows_cases s body u ok with h | ⟨p, h⟩
    · rw [h]
      exact ⟨List.take_length s.rows, fun d hd => Or.inl hd⟩
    · rw [h]
      constructor
      · exact List.take_left s.rows [newDonationOf s p u]
      · intro d hd
        rcases List.mem_append.mp hd with h1 | h1
        · exact Or.inl h1
        · right
          rw [List.mem_singleton.mp h1]
          rfl

/-- A store reached by one successful create from the fresh database. -/
def s1 : Store := (add_donation initialStore (Option.some pW) 5 true).store

/-- The single row of `s1`. -/
def d1 : Donation := newDonationOf initialStore pW 5

lemma s1_rows : s1.rows = [d1] := rfl

lemma d1_mem : d1 ∈ s1.rows := by
  rw [s1_rows]
  exact List.mem_singleton_self d1

lemma s1_reachable : Reachable s1 :=
  Reachable.create initialStore (Option.some pW) 5 true Reachable.init

theorem donation_status_machine_witness :
    (d1.status = "pending" ∨ d1.status = "claimed")
    ∧ (claim_donation s1 1 true).store.rows.length = s1.rows.length
    ∧ ((claimUpd 1 d1).status = d1.status
        ∨ (d1.status = "pending" ∧ (claimUpd 1 d1).status = "claimed"))
    ∧ (add_donation initialStore (Option.some pW) 5 true).store.rows.take
        initialStore.rows.length = initialStore.rows := by
  refine ⟨?_, ?_, ?_, ?_⟩
  · exact donation_status_machine.1 s1 s1_reachable d1 d1_mem
  · exact donation_status_machine.2.1 s1 1 true
  · exact donation_status_machine.2.2.1 s1 s1_reachable 1 true 1 d1 (claimUpd 1 d1) rfl rfl
  · exact (donation_status_machine.2.2.2 initialStore (Option.some pW) 5 true).1
